import Mathlib

/-!
Shallow embedding of the planning/selection core of `slideshow_maker/slideshow.py`
(heavygee/slideshow-maker): the slide-count planner `calculate_slides_needed`,
the image selector `select_images`, and the orchestrator
`create_slideshow_with_audio`.  Durations are modelled as rationals, Python
`int(...)` truncation as `pyInt`, the implicit global RNG as an injected stream
of indices, and the external collaborators (audio/video modules, filesystem)
as an explicit environment plus a trace of the collaborator calls made.
-/

namespace SlideshowMaker

/-- Python `int(x)` applied to a real number: truncation toward zero. -/
def pyInt (q : ℚ) : ℤ := if 0 ≤ q then ⌊q⌋ else ⌈q⌉

/-- Errors a planning run can surface.  `zeroDivisionError` is the Python
exception raised by a division by zero; `invalidDurationRange` is the
designed configuration error named by the specification's error taxonomy. -/
inductive PyError where
  | zeroDivisionError
  | invalidDurationRange
deriving DecidableEq, Repr

/-- `calculate_slides_needed(audio_duration, min_duration, max_duration, test_mode)`
from `slideshow.py`, with the configuration constant `MAX_SLIDES_LIMIT`
passed explicitly as `cap`.  Test mode: `int(60 / ((min+max)/2))`, no cap.
Full mode: `int(audio_duration / ((min+max)/2))`, clamped to `cap` when it
exceeds it.  A zero average divisor raises `ZeroDivisionError` in Python,
modelled as `.error .zeroDivisionError`. -/
def calculate_slides_needed (audio_duration mn mx : ℚ) (test_mode : Bool)
    (cap : ℤ) : Except PyError ℤ :=
  let avg : ℚ := (mn + mx) / 2
  if avg = 0 then .error .zeroDivisionError
  else if test_mode then .ok (pyInt (60 / avg))
  else
    let slides := pyInt (audio_duration / avg)
    .ok (if slides > cap then cap else slides)

/-- `select_images(all_images, slides_needed, test_mode)` from `slideshow.py`.
The global `random.choice` is modelled by an injected stream `rng` of natural
numbers; draw `i` picks index `rng i % len(all_images)` of the catalog.
Empty catalog: empty result.  Test mode: `all_images[:slides_needed]`.
Full mode: a copy of the whole catalog, then `slides_needed - len(all_images)`
random draws appended when that difference is positive. -/
def select_images (all_images : List String) (slides_needed : ℕ)
    (test_mode : Bool) (rng : ℕ → ℕ) : List String :=
  if all_images.length = 0 then []
  else if test_mode then all_images.take slides_needed
  else
    let remaining : ℤ := (slides_needed : ℤ) - (all_images.length : ℤ)
    if remaining > 0 then
      all_images ++ (List.range (slides_needed - all_images.length)).map
        (fun i => all_images.getD (rng i % all_images.length) "")
    else all_images

/-- One call made to an external collaborator (audio module, video module,
filesystem) by the orchestrator, in invocation order. -/
inductive ExtCall where
  | findAudioFiles
  | getTotalAudioDuration
  | findImages
  | mergeAudio
  | createSlideshow
  | combineVideoAudio
  | removeFile
deriving DecidableEq, Repr

/-- The environment the orchestrator runs in: what the filesystem and the
external collaborators would answer.  `audioOutputExists` is whether the
merged-audio artifact `AUDIO_OUTPUT` is already present in the working
directory; `mergeOk`/`renderOk`/`combineOk` are the success of the
corresponding external invocations. -/
structure Env where
  dirExists : Bool
  audioFiles : List String
  audioDuration : ℚ
  allImages : List String
  audioOutputExists : Bool
  mergeOk : Bool
  renderOk : Bool
  combineOk : Bool
  rng : ℕ → ℕ

/-- The render/combine/cleanup tail of the full (non-dry) run: create the
slideshow video, combine it with the merged audio, then best-effort removal
of the intermediate video file. -/
def renderAndCombine (env : Env) (trace : List ExtCall) :
    Except PyError Bool × List ExtCall :=
  if !env.renderOk then (.ok false, trace ++ [.createSlideshow])
  else if !env.combineOk then
    (.ok false, trace ++ [.createSlideshow, .combineVideoAudio])
  else (.ok true, trace ++ [.createSlideshow, .combineVideoAudio, .removeFile])

/-- `create_slideshow_with_audio(image_dir, test_mode, dry_run, min_duration,
max_duration)` from `slideshow.py`, returning the Python result (`True`/`False`,
or a propagated exception) together with the trace of external collaborator
calls.  Missing directory: `False` with no calls.  Dry run: audio discovery,
duration query, image discovery and planning only, then `True`.  Full run:
discovery, planning, selection, then audio merge (skipped when the merged
audio artifact already exists), render, combine, cleanup. -/
def create_slideshow_with_audio (env : Env) (test_mode dry_run : Bool)
    (mn mx : ℚ) (cap : ℤ) : Except PyError Bool × List ExtCall :=
  if !env.dirExists then (.ok false, [])
  else if dry_run then
    if env.audioFiles.isEmpty then (.ok false, [.findAudioFiles])
    else
      match calculate_slides_needed env.audioDuration mn mx test_mode cap with
      | .error e => (.error e, [.findAudioFiles, .getTotalAudioDuration, .findImages])
      | .ok _ => (.ok true, [.findAudioFiles, .getTotalAudioDuration, .findImages])
  else if env.audioFiles.isEmpty then (.ok false, [.findAudioFiles])
  else
    match calculate_slides_needed env.audioDuration mn mx test_mode cap with
    | .error e => (.error e, [.findAudioFiles, .getTotalAudioDuration, .findImages])
    | .ok slides =>
      let _images := select_images env.allImages slides.toNat test_mode env.rng
      let t0 : List ExtCall := [.findAudioFiles, .getTotalAudioDuration, .findImages]
      if !env.audioOutputExists then
        if !env.mergeOk then (.ok false, t0 ++ [.mergeAudio])
        else renderAndCombine env (t0 ++ [.mergeAudio])
      else renderAndCombine env t0

/-- A concrete environment for instantiating the orchestrator theorems:
an existing directory with one audio file and one image, all collaborators
succeeding, merged audio not yet present. -/
def envFresh : Env :=
  ⟨true, ["song.mp3"], 100, ["a.jpg"], false, true, true, true, fun _ => 0⟩

/-- A concrete environment identical to `envFresh` except that the merged
audio artifact already exists in the working directory. -/
def envMerged : Env :=
  ⟨true, ["song.mp3"], 100, ["a.jpg"], true, true, true, true, fun _ => 0⟩

/-- Truncation toward zero agrees with the floor on nonnegative inputs. -/
theorem pyInt_of_nonneg {q : ℚ} (h : 0 ≤ q) : pyInt q = ⌊q⌋ := by
  simp [pyInt, h]

/-- C1: in Full mode with a positive-average range and a nonnegative audio
duration, the planner returns `min ⌊audio / average⌋ cap`; moreover every
Full-mode result, over all inputs, is at most the cap. -/
theorem calculate_slides_needed_full (audio mn mx : ℚ) (cap : ℤ)
    (hrange : 0 < mn + mx) (haudio : 0 ≤ audio) :
    calculate_slides_needed audio mn mx false cap
        = .ok (min ⌊audio / ((mn + mx) / 2)⌋ cap)
      ∧ ∀ (a m M : ℚ) (c r : ℤ),
          calculate_slides_needed a m M false c = .ok r → r ≤ c := by
  constructor
  · have havg : (0 : ℚ) < (mn + mx) / 2 := by positivity
    have hne : ((mn + mx) / 2 : ℚ) ≠ 0 := ne_of_gt havg
    have hq : (0 : ℚ) ≤ audio / ((mn + mx) / 2) := div_nonneg haudio havg.le
    simp only [calculate_slides_needed, hne, if_false, Bool.false_eq_true,
      pyInt_of_nonneg hq]
    congr 1
    rcases le_or_lt ⌊audio / ((mn + mx) / 2)⌋ cap with h | h
    · rw [if_neg (by omega), min_eq_left h]
    · rw [if_pos h, min_eq_right h.le]
  · intro a m M c r h
    simp only [calculate_slides_needed, Bool.false_eq_true, if_false] at h
    rcases eq_or_ne ((m + M) / 2 : ℚ) 0 with h0 | h0
    · rw [if_pos h0] at h
      exact absurd h (by simp)
    · rw [if_neg h0, Except.ok.injEq] at h
      subst h
      split <;> omega

/-- C1 witness: range (3,7), audio 100 s, cap 1000. -/
theorem calculate_slides_needed_full_witness :
    (0 : ℚ) < 3 + 7 ∧ (0 : ℚ) ≤ 100 ∧
      (calculate_slides_needed 100 3 7 false 1000
          = .ok (min ⌊(100 : ℚ) / ((3 + 7) / 2)⌋ 1000)
        ∧ ∀ (a m M : ℚ) (c r : ℤ),
            calculate_slides_needed a m M false c = .ok r → r ≤ c) :=
  ⟨by norm_num, by norm_num,
    calculate_slides_needed_full 100 3 7 1000 (by norm_num) (by norm_num)⟩

/-- C5: in Test mode with a positive-average range, the planner returns
`⌊60 / average⌋` for every audio duration and every cap: the audio duration
is ignored and no cap is applied. -/
theorem calculate_slides_needed_test (audio₁ audio₂ mn mx : ℚ) (cap₁ cap₂ : ℤ)
    (hrange : 0 < mn + mx) :
    calculate_slides_needed audio₁ mn mx true cap₁
        = .ok ⌊(60 : ℚ) / ((mn + mx) / 2)⌋
      ∧ calculate_slides_needed audio₁ mn mx true cap₁
        = calculate_slides_needed audio₂ mn mx true cap₂ := by
  have havg : (0 : ℚ) < (mn + mx) / 2 := by positivity
  have hne : ((mn + mx) / 2 : ℚ) ≠ 0 := ne_of_gt havg
  have hq : (0 : ℚ) ≤ 60 / ((mn + mx) / 2) := by positivity
  constructor
  · simp [calculate_slides_needed, hne, pyInt_of_nonneg hq]
  · simp [calculate_slides_needed, hne]

/-- C5 witness: range (2,4): 60 s synthetic target gives 20 slides, for two
different audio durations and caps. -/
theorem calculate_slides_needed_test_witness :
    (0 : ℚ) < 2 + 4 ∧
      (calculate_slides_needed 100 2 4 true 1000
          = .ok ⌊(60 : ℚ) / ((2 + 4) / 2)⌋
        ∧ calculate_slides_needed 100 2 4 true 1000
          = calculate_slides_needed 5 2 4 true 7) :=
  ⟨by norm_num, calculate_slides_needed_test 100 5 2 4 1000 7 (by norm_num)⟩

/-- C8 (code bug): with min = max = 0 the code performs the division by zero
and raises `ZeroDivisionError`, in both Test and Full mode; the
`InvalidDurationRange` fail-fast required by the design does not exist. -/
theorem calculate_slides_needed_zero_average :
    calculate_slides_needed 100 0 0 false 1000 = .error .zeroDivisionError
      ∧ calculate_slides_needed 100 0 0 true 1000 = .error .zeroDivisionError
      ∧ calculate_slides_needed 100 0 0 false 1000
          ≠ .error .invalidDurationRange
      ∧ calculate_slides_needed 100 0 0 true 1000
          ≠ .error .invalidDurationRange := by
  refine ⟨?_, ?_, ?_, ?_⟩ <;> simp [calculate_slides_needed]

/-- A random draw from a nonempty catalog is a member of the catalog. -/
theorem getD_mod_mem {l : List String} (h : l ≠ []) (n : ℕ) :
    l.getD (n % l.length) "" ∈ l := by
  have hlen : 0 < l.length := List.length_pos.mpr h
  have hlt : n % l.length < l.length := Nat.mod_lt _ hlen
  rw [List.getD_eq_getElem _ _ hlt]
  exact List.getElem_mem hlt

/-- C7: an empty catalog yields an empty selection, for every slide count and
both modes. -/
theorem select_images_empty_catalog (slides : ℕ) (mode : Bool) (rng : ℕ → ℕ) :
    select_images [] slides mode rng = [] := by
  simp [select_images]

/-- C6: Test-mode selection is the catalog prefix `all_images[:slides_needed]`,
of length `min slideCount catalogSize`, for every catalog, slide count and
random stream (so no randomness is involved). -/
theorem select_images_test (imgs : List String) (slides : ℕ) (rng : ℕ → ℕ) :
    select_images imgs slides true rng = imgs.take slides
      ∧ (select_images imgs slides true rng).length = min slides imgs.length := by
  have he : select_images imgs slides true rng = imgs.take slides := by
    unfold select_images
    split
    · rename_i h0
      rw [List.length_eq_zero.mp h0]
      simp
    · simp
  exact ⟨he, by rw [he, List.length_take]⟩

/-- C4: in Full mode with a nonempty catalog and a slide count at most the
catalog size, selection returns exactly the full catalog: no repeats and no
truncation. -/
theorem select_images_full_no_truncation (imgs : List String) (slides : ℕ)
    (rng : ℕ → ℕ) (h : imgs ≠ []) (hle : slides ≤ imgs.length) :
    select_images imgs slides false rng = imgs := by
  have h0 : ¬ imgs.length = 0 := by
    simpa [List.length_eq_zero] using h
  unfold select_images
  rw [if_neg h0]
  simp only [Bool.false_eq_true, if_false]
  rw [if_neg (by omega)]

/-- C4 witness: a three-image catalog with a plan for two slides is returned
whole. -/
theorem select_images_full_no_truncation_witness :
    (["a", "b", "c"] : List String) ≠ []
      ∧ 2 ≤ (["a", "b", "c"] : List String).length
      ∧ select_images ["a", "b", "c"] 2 false (fun _ => 0) = ["a", "b", "c"] :=
  ⟨by decide, by decide,
    select_images_full_no_truncation ["a", "b", "c"] 2 (fun _ => 0)
      (by decide) (by decide)⟩

/-- C3: in Full mode with a nonempty catalog and a slide count at least the
catalog size, the selection has length exactly the slide count, its first
`catalogSize` entries are the catalog in order (so every catalog entry
appears), and every remaining entry is drawn from the catalog. -/
theorem select_images_full_coverage (imgs : List String) (slides : ℕ)
    (rng : ℕ → ℕ) (h : imgs ≠ []) (hge : imgs.length ≤ slides) :
    (select_images imgs slides false rng).length = slides
      ∧ (select_images imgs slides false rng).take imgs.length = imgs
      ∧ (∀ x ∈ imgs, x ∈ select_images imgs slides false rng)
      ∧ ∀ x ∈ (select_images imgs slides false rng).drop imgs.length,
          x ∈ imgs := by
  have h0 : ¬ imgs.length = 0 := by
    simpa [List.length_eq_zero] using h
  rcases eq_or_lt_of_le hge with heq | hlt
  · have hr : select_images imgs slides false rng = imgs :=
      select_images_full_no_truncation imgs slides rng h heq.ge
    rw [hr]
    refine ⟨heq, List.take_length imgs, fun x hx => hx, ?_⟩
    simp
  · have hr : select_images imgs slides false rng
        = imgs ++ (List.range (slides - imgs.length)).map
            (fun i => imgs.getD (rng i % imgs.length) "") := by
      unfold select_images
      rw [if_neg h0]
      simp only [Bool.false_eq_true, if_false]
      rw [if_pos (by omega)]
    rw [hr]
    refine ⟨?_, ?_, ?_, ?_⟩
    · simp only [List.length_append, List.length_map, List.length_range]
      omega
    · rw [List.take_left]
    · intro x hx
      exact List.mem_append_left _ hx
    · intro x hx
      rw [List.drop_left] at hx
      rcases List.mem_map.mp hx with ⟨i, _, hi⟩
      rw [← hi]
      exact getD_mod_mem h (rng i)

/-- C3 witness: a two-image catalog filled to three slides. -/
theorem select_images_full_coverage_witness :
    (["a", "b"] : List String) ≠ []
      ∧ (["a", "b"] : List String).length ≤ 3
      ∧ ((select_images ["a", "b"] 3 false (fun _ => 0)).length = 3
        ∧ (select_images ["a", "b"] 3 false (fun _ => 0)).take
            (["a", "b"] : List String).length = ["a", "b"]
        ∧ (∀ x ∈ (["a", "b"] : List String),
            x ∈ select_images ["a", "b"] 3 false (fun _ => 0))
        ∧ ∀ x ∈ (select_images ["a", "b"] 3 false (fun _ => 0)).drop
            (["a", "b"] : List String).length,
            x ∈ (["a", "b"] : List String)) :=
  ⟨by decide, by decide,
    select_images_full_coverage ["a", "b"] 3 (fun _ => 0) (by decide) (by decide)⟩

/-- C2 counterexample: a two-image catalog with a planned count of one slide
in Full mode yields a sequence of length two, not one: the selection length
does not always equal the planned slide count. -/
theorem select_images_length_counterexample :
    (select_images ["a", "b"] 1 false (fun _ => 0)).length ≠ 1 := by
  decide

/-- C2 amended: for a nonempty catalog the selection length is
`min slideCount catalogSize` in Test mode and `max slideCount catalogSize`
in Full mode (equal to the planned count only when the plan is at least the
catalog size). -/
theorem select_images_length (imgs : List String) (slides : ℕ) (rng : ℕ → ℕ)
    (h : imgs ≠ []) :
    (select_images imgs slides true rng).length = min slides imgs.length
      ∧ (select_images imgs slides false rng).length
        = max slides imgs.length := by
  refine ⟨(select_images_test imgs slides rng).2, ?_⟩
  rcases le_or_lt slides imgs.length with hle | hlt
  · rw [select_images_full_no_truncation imgs slides rng h hle]
    omega
  · rw [(select_images_full_coverage imgs slides rng h hlt.le).1]
    omega

/-- C2 amended witness: two images, one planned slide: Test-mode length one,
Full-mode length two. -/
theorem select_images_length_witness :
    (["a", "b"] : List String) ≠ []
      ∧ ((select_images ["a", "b"] 1 true (fun _ => 0)).length
          = min 1 (["a", "b"] : List String).length
        ∧ (select_images ["a", "b"] 1 false (fun _ => 0)).length
          = max 1 (["a", "b"] : List String).length) :=
  ⟨by decide, select_images_length ["a", "b"] 1 (fun _ => 0) (by decide)⟩

/-- With a nonzero average the planner raises nothing: it returns some count. -/
theorem calculate_slides_needed_ok (a mn mx : ℚ) (tm : Bool) (cap : ℤ)
    (h : ((mn + mx) / 2 : ℚ) ≠ 0) :
    ∃ k, calculate_slides_needed a mn mx tm cap = .ok k := by
  unfold calculate_slides_needed
  rw [if_neg h]
  cases tm <;> simp

/-- C9: a dry run on an existing directory with a valid duration range
succeeds exactly when audio files are found (its only failure there is the
no-audio one), and every external call it makes is audio discovery, duration
query or image discovery: the merger, renderer and combiner are never
invoked. -/
theorem create_slideshow_dry_run (env : Env) (test_mode : Bool) (mn mx : ℚ)
    (cap : ℤ) (hdir : env.dirExists = true) (hrange : 0 < mn + mx) :
    (create_slideshow_with_audio env test_mode true mn mx cap).1
        = .ok (!env.audioFiles.isEmpty)
      ∧ ∀ c ∈ (create_slideshow_with_audio env test_mode true mn mx cap).2,
          c = ExtCall.findAudioFiles ∨ c = ExtCall.getTotalAudioDuration
            ∨ c = ExtCall.findImages := by
  have havg : ((mn + mx) / 2 : ℚ) ≠ 0 := by positivity
  obtain ⟨k, hk⟩ :=
    calculate_slides_needed_ok env.audioDuration mn mx test_mode cap havg
  cases hA : env.audioFiles.isEmpty
  · constructor
    · simp [create_slideshow_with_audio, hdir, hA, hk]
    · intro c hc
      simp [create_slideshow_with_audio, hdir, hA, hk] at hc
      tauto
  · constructor
    · simp [create_slideshow_with_audio, hdir, hA]
    · intro c hc
      simp [create_slideshow_with_audio, hdir, hA] at hc
      tauto

/-- C9 witness: a fresh environment with one audio file, Full mode,
range (3,7). -/
theorem create_slideshow_dry_run_witness :
    envFresh.dirExists = true ∧ (0 : ℚ) < 3 + 7 ∧
      ((create_slideshow_with_audio envFresh false true 3 7 1000).1
          = .ok (!envFresh.audioFiles.isEmpty)
        ∧ ∀ c ∈ (create_slideshow_with_audio envFresh false true 3 7 1000).2,
            c = ExtCall.findAudioFiles ∨ c = ExtCall.getTotalAudioDuration
              ∨ c = ExtCall.findImages) :=
  ⟨rfl, by norm_num,
    create_slideshow_dry_run envFresh false 3 7 1000 rfl (by norm_num)⟩

/-- C10: in a non-dry run where the merged audio artifact already exists, the
audio merge is never invoked, and (directory present, audio found, valid
range) the run proceeds to the renderer with the existing merged audio. -/
theorem create_slideshow_reuses_merged_audio (env : Env) (test_mode : Bool)
    (mn mx : ℚ) (cap : ℤ) (hexists : env.audioOutputExists = true) :
    ExtCall.mergeAudio
        ∉ (create_slideshow_with_audio env test_mode false mn mx cap).2
      ∧ (env.dirExists = true → env.audioFiles.isEmpty = false →
          0 < mn + mx →
          ExtCall.createSlideshow
            ∈ (create_slideshow_with_audio env test_mode false mn mx cap).2) := by
  cases hdir : env.dirExists
  · constructor
    · simp [create_slideshow_with_audio, hdir]
    · intro h
      exact absurd h (by simp [hdir])
  · cases hA : env.audioFiles.isEmpty
    · rcases hplan : calculate_slides_needed env.audioDuration mn mx test_mode cap
        with e | k
      · constructor
        · simp [create_slideshow_with_audio, hdir, hA, hplan]
        · intro _ _ hrange
          have havg : ((mn + mx) / 2 : ℚ) ≠ 0 := by positivity
          obtain ⟨k, hk⟩ :=
            calculate_slides_needed_ok env.audioDuration mn mx test_mode cap havg
          rw [hplan] at hk
          exact absurd hk (by simp)
      · cases hR : env.renderOk
        · constructor
          · simp [create_slideshow_with_audio, renderAndCombine, hdir, hA,
              hplan, hexists, hR]
          · intro _ _ _
            simp [create_slideshow_with_audio, renderAndCombine, hdir, hA,
              hplan, hexists, hR]
        · cases hC : env.combineOk
          · constructor
            · simp [create_slideshow_with_audio, renderAndCombine, hdir, hA,
                hplan, hexists, hR, hC]
            · intro _ _ _
              simp [create_slideshow_with_audio, renderAndCombine, hdir, hA,
                hplan, hexists, hR, hC]
          · constructor
            · simp [create_slideshow_with_audio, renderAndCombine, hdir, hA,
                hplan, hexists, hR, hC]
            · intro _ _ _
              simp [create_slideshow_with_audio, renderAndCombine, hdir, hA,
                hplan, hexists, hR, hC]
    · constructor
      · simp [create_slideshow_with_audio, hdir, hA]
      · intro _ h
        exact absurd h (by simp [hA])

/-- C10 witness: the environment where the merged audio already exists, Full
mode, range (3,7). -/
theorem create_slideshow_reuses_merged_audio_witness :
    envMerged.audioOutputExists = true ∧
      (ExtCall.mergeAudio
          ∉ (create_slideshow_with_audio envMerged false false 3 7 1000).2
        ∧ (envMerged.dirExists = true → envMerged.audioFiles.isEmpty = false →
            (0 : ℚ) < 3 + 7 →
            ExtCall.createSlideshow
              ∈ (create_slideshow_with_audio envMerged false false 3 7 1000).2)) :=
  ⟨rfl, create_slideshow_reuses_merged_audio envMerged false 3 7 1000 rfl⟩

end SlideshowMaker
